import Mathlib

/-!
Verification development for the issues-register repository.

The server (server.js) is an Express application with two interchangeable
storage backends: a JSON file with rotating backup snapshots (dev mode,
no DATABASE_URL) and a Postgres table holding one JSONB payload per user
(prod mode).  The client (src/App.jsx) keeps an in-memory edit buffer of
the document and flushes it with a debounced full-document PUT.

The embedding below translates the relevant functions of the source into
pure Lean functions.  JSON values are modelled by the inductive type
Json; JavaScript null/undefined coalescing (the ?? and || operators) is
modelled explicitly.  File-system and database effects are modelled as
explicit state passing: the data file holds the parsed JSON value that
JSON.stringify would have written (JSON.stringify / JSON.parse round-trip
is the identity at the level of JSON values), the backup directory is a
list of snapshot files with name / mtime / content, and the Postgres
app_state table is an association list from user id to payload.
bcrypt is an external library and is modelled as an opaque hash/compare
capability (a Hasher record), exactly as the spec treats it.
-/

/-- JSON values (ordered arrays and objects, as JavaScript preserves
insertion order). -/
inductive Json where
  | null : Json
  | bool : Bool → Json
  | num : Int → Json
  | str : String → Json
  | arr : List Json → Json
  | obj : List (String × Json) → Json

/-- JavaScript nullish coalescing with the empty array: models the
expression value ?? [] applied to a possibly-absent (undefined, modelled
as none) or null JSON value. -/
def jsCoalesce : Option Json → Json
  | none => Json.arr []
  | some Json.null => Json.arr []
  | some (Json.bool b) => Json.bool b
  | some (Json.num n) => Json.num n
  | some (Json.str s) => Json.str s
  | some (Json.arr l) => Json.arr l
  | some (Json.obj kvs) => Json.obj kvs

/-- JavaScript truthiness of a JSON value: null, false, 0 and the empty
string are falsy; arrays and objects are always truthy. -/
def jsTruthy : Json → Bool
  | Json.null => false
  | Json.bool b => b
  | Json.num n => n != 0
  | Json.str s => s != ""
  | Json.arr _ => true
  | Json.obj _ => true

/-- Models the expression req.body || \x7b\x7d: an absent (undefined) or
falsy body is replaced by the empty object before destructuring. -/
def bodyOr : Option Json → Json
  | none => Json.obj []
  | some v => if jsTruthy v then v else Json.obj []

/-- JavaScript property access on a JSON value: a key lookup on an
object, undefined (none) on every other shape. -/
def getField (v : Json) (k : String) : Option Json :=
  match v with
  | Json.obj kvs => (kvs.find? (fun kv => kv.1 == k)).map (fun kv => kv.2)
  | _ => none

/-- Models the expression x || null on an optional string field: the
empty string and absence both collapse to null (none). -/
def strOrNull : Option String → Option String
  | none => none
  | some s => if s = "" then none else some s

/-- JSON encoding of a nullable string (displayName in responses). -/
def jsonOfOptStr : Option String → Json
  | none => Json.null
  | some s => Json.str s

-- ---------- File storage (dev only), from server.js ----------

/-- One snapshot file in the backup directory BK_DIR: its file name
(an ISO timestamp with colons replaced, plus ".json"), its mtime in
milliseconds, and its JSON content. -/
structure BackupFile where
  name : String
  mtime : Nat
  content : Json

/-- The file-backed storage state: the parsed content of DATA_FILE and
the contents of the backup directory.  ensureStorage seeds DATA_FILE
with []; every file in BK_DIR is a snapshot written by createBackup. -/
structure FileState where
  dataFile : Json
  backups : List BackupFile

/-- writeFileAtomic on the backup directory: writing a file either
overwrites the file of the same name or adds a new file. -/
def fsWrite (files : List BackupFile) (f : BackupFile) : List BackupFile :=
  if files.any (fun g => g.name == f.name) then
    files.map (fun g => if g.name == f.name then f else g)
  else f :: files

/-- Insert one file into a list sorted by decreasing mtime. -/
def insertByMtime (b : BackupFile) : List BackupFile → List BackupFile
  | [] => [b]
  | c :: t => if c.mtime ≤ b.mtime then b :: c :: t else c :: insertByMtime b t

/-- listBackups, from server.js: the backup directory sorted by
decreasing mtime (sort((a, b) => b.mtime - a.mtime)). -/
def listBackups : List BackupFile → List BackupFile
  | [] => []
  | b :: t => insertByMtime b (listBackups t)

/-- createBackup, from server.js: write the new timestamped snapshot,
then list all backups newest-first and delete every entry beyond
MAX_BACKUPS.  The directory is represented by the surviving list. -/
def createBackup (maxBackups : Nat) (files : List BackupFile) (f : BackupFile) :
    List BackupFile :=
  let all := listBackups (fsWrite files f)
  if maxBackups < all.length then all.take maxBackups else all

/-- writeAllFileAndBackup, from server.js: coalesce a null/undefined
value to [], atomically write DATA_FILE, and create a rotating backup
snapshot.  The snapshot's name and mtime come from the clock (the stamp
argument). -/
def writeAllFileAndBackup (maxBackups : Nat) (stampName : String) (stampMtime : Nat)
    (st : FileState) (value : Option Json) : FileState :=
  let payload := jsCoalesce value
  { dataFile := payload,
    backups := createBackup maxBackups st.backups
      { name := stampName, mtime := stampMtime, content := payload } }

/-- readAllFile, from server.js: parse DATA_FILE ([] on a parse error;
the file always holds the JSON last written, so the parse succeeds). -/
def readAllFile (st : FileState) : Json :=
  st.dataFile

-- ---------- Postgres storage (prod), from server.js ----------

/-- One row of the users table. -/
structure PGUser where
  id : Nat
  email : String
  passwordHash : String
  displayName : Option String

/-- The Postgres state: the users table, the app_state table
(user_id, payload) and the next serial id. -/
structure PGState where
  users : List PGUser
  appState : List (Nat × Json)
  nextId : Nat

/-- select payload from app_state where user_id equals the argument. -/
def lookupPayload (l : List (Nat × Json)) (u : Nat) : Option Json :=
  (l.find? (fun e => e.1 == u)).map (fun e => e.2)

/-- readAllPG, from server.js: the stored payload, or [] when the user
has no app_state row yet. -/
def readAllPG (st : PGState) (userId : Nat) : Json :=
  match lookupPayload st.appState userId with
  | some p => p
  | none => Json.arr []

/-- insert ... on conflict (user_id) do update: upsert of one row. -/
def upsertPayload (l : List (Nat × Json)) (u : Nat) (v : Json) : List (Nat × Json) :=
  if l.any (fun e => e.1 == u) then
    l.map (fun e => if e.1 == u then (u, v) else e)
  else (u, v) :: l

/-- writeAllPG, from server.js: coalesce null/undefined to [] and upsert
the payload row of the given user. -/
def writeAllPG (st : PGState) (userId : Nat) (value : Option Json) : PGState :=
  { st with appState := upsertPayload st.appState userId (jsCoalesce value) }

/-- The opaque password hashing capability (bcryptjs in the source):
hash is bcrypt.hash with its salt fixed by the capability, compare is
bcrypt.compare. -/
structure Hasher where
  hash : String → String
  compare : String → String → Bool

/-- getUserByEmail, from server.js. -/
def getUserByEmail (st : PGState) (email : String) : Option PGUser :=
  st.users.find? (fun u => u.email == email)

/-- getUserById, from server.js. -/
def getUserById (st : PGState) (id : Nat) : Option PGUser :=
  st.users.find? (fun u => u.id == id)

/-- createUser, from server.js: hash the password, insert the user row
(serial id), and pre-create an empty app_state row on conflict do
nothing. -/
def createUser (hasher : Hasher) (st : PGState) (email password : String)
    (displayName : Option String) : PGUser × PGState :=
  let user : PGUser :=
    { id := st.nextId, email := email, passwordHash := hasher.hash password,
      displayName := displayName }
  let appState :=
    if st.appState.any (fun e => e.1 == user.id) then st.appState
    else (user.id, Json.arr []) :: st.appState
  (user, { users := st.users ++ [user], appState := appState, nextId := st.nextId + 1 })

/-- updatePasswordPG, from server.js: look the user up, verify the old
password against the stored hash, and replace the hash; the two failure
messages are the thrown error messages of the source. -/
def updatePasswordPG (hasher : Hasher) (st : PGState) (userId : Nat)
    (oldPassword newPassword : String) : Except String PGState :=
  match getUserById st userId with
  | none => Except.error "user not found"
  | some u =>
    if hasher.compare oldPassword u.passwordHash then
      Except.ok { st with users := st.users.map (fun v =>
        if v.id == userId then { v with passwordHash := hasher.hash newPassword } else v) }
    else Except.error "invalid credentials"

/-- updateDisplayNamePG, from server.js. -/
def updateDisplayNamePG (st : PGState) (userId : Nat) (displayName : Option String) :
    PGState :=
  { st with users := st.users.map (fun v =>
      if v.id == userId then { v with displayName := displayName } else v) }

-- ---------- Sessions, responses and routes, from server.js ----------

/-- The cookie session: userId is bound at login/registration; email and
displayName are cached in the cookie only by the dev (file) mode. -/
structure Session where
  userId : Option Nat
  email : Option String
  displayName : Option String

/-- An HTTP response: status code and JSON body. -/
structure Res where
  status : Nat
  body : Json

/-- The 401 response produced by requireAuth. -/
def authRequiredRes : Res :=
  { status := 401, body := Json.obj [("error", Json.str "auth required")] }

/-- An error response with the given status code and message, the shape
res.status(code).json(\x7berror: msg\x7d) of the source. -/
def errRes (code : Nat) (msg : String) : Res :=
  { status := code, body := Json.obj [("error", Json.str msg)] }

/-- The body \x7bstatus: "ok"\x7d returned by the projects write routes. -/
def okStatusRes : Res :=
  { status := 200, body := Json.obj [("status", Json.str "ok")] }

/-- The body \x7bok: true\x7d returned by restore, profile and password
routes. -/
def okTrueRes : Res :=
  { status := 200, body := Json.obj [("ok", Json.bool true)] }

/-- requireAuth, from server.js: if req.session.userId is falsy
(absent or the number 0) answer 401 without running the handler. -/
def requireAuth (sess : Session) (st : FileState × PGState)
    (h : Nat → Res × (FileState × PGState) × Session) :
    Res × (FileState × PGState) × Session :=
  match sess.userId with
  | none => (authRequiredRes, st, sess)
  | some 0 => (authRequiredRes, st, sess)
  | some uid => h uid

/-- The combined server storage state: the file backend and the
Postgres backend (only one is active, selected by usePG). -/
abbrev ServerState := FileState × PGState

/-- GET /api/projects, from server.js. -/
def getProjectsHandler (usePG : Bool) (sess : Session) (st : ServerState) :
    Res × ServerState × Session :=
  requireAuth sess st fun uid =>
    ({ status := 200,
       body := if usePG then readAllPG st.2 uid else readAllFile st.1 }, st, sess)

/-- PUT /api/projects, from server.js: coalesce req.body ?? [] and hand
it to the active backend. -/
def putProjectsHandler (usePG : Bool) (maxBackups : Nat) (stampName : String)
    (stampMtime : Nat) (body : Option Json) (sess : Session) (st : ServerState) :
    Res × ServerState × Session :=
  requireAuth sess st fun uid =>
    let b := jsCoalesce body
    if usePG then (okStatusRes, (st.1, writeAllPG st.2 uid (some b)), sess)
    else (okStatusRes, (writeAllFileAndBackup maxBackups stampName stampMtime st.1 (some b), st.2), sess)

/-- POST /api/projects, from server.js: identical body to the PUT
route (the source repeats the handler). -/
def postProjectsHandler (usePG : Bool) (maxBackups : Nat) (stampName : String)
    (stampMtime : Nat) (body : Option Json) (sess : Session) (st : ServerState) :
    Res × ServerState × Session :=
  requireAuth sess st fun uid =>
    let b := jsCoalesce body
    if usePG then (okStatusRes, (st.1, writeAllPG st.2 uid (some b)), sess)
    else (okStatusRes, (writeAllFileAndBackup maxBackups stampName stampMtime st.1 (some b), st.2), sess)

/-- GET /api/backup, from server.js: wrap the current document as
\x7bpayload: Document\x7d with no write. -/
def getBackupHandler (usePG : Bool) (sess : Session) (st : ServerState) :
    Res × ServerState × Session :=
  requireAuth sess st fun uid =>
    ({ status := 200,
       body := Json.obj [("payload",
         if usePG then readAllPG st.2 uid else readAllFile st.1)] }, st, sess)

/-- POST /api/restore, from server.js: destructure payload from
req.body || \x7b\x7d, reject a non-array payload with 400, otherwise
replace the stored document. -/
def postRestoreHandler (usePG : Bool) (maxBackups : Nat) (stampName : String)
    (stampMtime : Nat) (body : Option Json) (sess : Session) (st : ServerState) :
    Res × ServerState × Session :=
  requireAuth sess st fun uid =>
    match getField (bodyOr body) "payload" with
    | some (Json.arr l) =>
      if usePG then
        (okTrueRes, (st.1, writeAllPG st.2 uid (some (Json.arr l))), sess)
      else
        (okTrueRes, (writeAllFileAndBackup maxBackups stampName stampMtime st.1 (some (Json.arr l)), st.2), sess)
    | _ => (errRes 400 "payload must be an array", st, sess)

/-- PATCH /api/me, from server.js: set or clear the display name
(displayName || null); the dev mode stores it in the session cookie. -/
def patchMeHandler (usePG : Bool) (displayName : Option String) (sess : Session)
    (st : ServerState) : Res × ServerState × Session :=
  requireAuth sess st fun uid =>
    if usePG then
      (okTrueRes, (st.1, updateDisplayNamePG st.2 uid (strOrNull displayName)), sess)
    else
      (okTrueRes, st, { sess with displayName := strOrNull displayName })

/-- POST /api/auth/change-password, from server.js: reject a falsy or
short newPassword with 400 first; in Postgres mode run updatePasswordPG
(oldPassword || ""), converting a thrown error to a 401 with the thrown
message; the dev mode pretends success. -/
def changePasswordHandler (usePG : Bool) (hasher : Hasher)
    (oldPassword newPassword : String) (sess : Session) (st : ServerState) :
    Res × ServerState × Session :=
  requireAuth sess st fun uid =>
    if newPassword = "" ∨ newPassword.length < 6 then
      (errRes 400 "newPassword must be at least 6 chars", st, sess)
    else if usePG then
      match updatePasswordPG hasher st.2 uid oldPassword newPassword with
      | Except.ok pg => (okTrueRes, (st.1, pg), sess)
      | Except.error msg => (errRes 401 msg, st, sess)
    else (okTrueRes, st, sess)

/-- POST /api/auth/register, from server.js: require truthy email and
password; in Postgres mode 409 when the email exists, otherwise create
the user and bind the session; the dev mode binds the fixed user 1. -/
def registerHandler (usePG : Bool) (hasher : Hasher) (email password : String)
    (name : Option String) (sess : Session) (st : ServerState) :
    Res × ServerState × Session :=
  if email = "" ∨ password = "" then
    (errRes 400 "email and password required", st, sess)
  else if usePG then
    match getUserByEmail st.2 email with
    | some _ => (errRes 409 "email already exists", st, sess)
    | none =>
      let created := createUser hasher st.2 email password (strOrNull name)
      ({ status := 200,
         body := Json.obj [("ok", Json.bool true), ("email", Json.str created.1.email),
                           ("displayName", jsonOfOptStr created.1.displayName)] },
       (st.1, created.2), { sess with userId := some created.1.id })
  else
    ({ status := 200,
       body := Json.obj [("ok", Json.bool true), ("email", Json.str email),
                         ("displayName", jsonOfOptStr (strOrNull name))] },
     st, { userId := some 1, email := some email, displayName := strOrNull name })

/-- POST /api/auth/login, from server.js: require truthy email and
password; in Postgres mode an unknown email and a failed hash
comparison produce the same 401 "invalid credentials" response; the dev
mode accepts anything as user 1. -/
def loginHandler (usePG : Bool) (hasher : Hasher) (email password : String)
    (sess : Session) (st : ServerState) : Res × ServerState × Session :=
  if email = "" ∨ password = "" then
    (errRes 400 "email and password required", st, sess)
  else if usePG then
    match getUserByEmail st.2 email with
    | none => (errRes 401 "invalid credentials", st, sess)
    | some u =>
      if hasher.compare password u.passwordHash then
        ({ status := 200,
           body := Json.obj [("ok", Json.bool true), ("email", Json.str u.email),
                             ("displayName", jsonOfOptStr u.displayName)] },
         st, { sess with userId := some u.id })
      else (errRes 401 "invalid credentials", st, sess)
  else
    ({ status := 200,
       body := Json.obj [("ok", Json.bool true), ("email", Json.str email),
                         ("displayName", jsonOfOptStr sess.displayName)] },
     st, { sess with userId := some 1, email := some email })

/-- The document a user currently sees through the active backend. -/
def storedDoc (usePG : Bool) (st : ServerState) (userId : Nat) : Json :=
  if usePG then readAllPG st.2 userId else readAllFile st.1

-- ---------- Client edit buffer, from src/App.jsx ----------

/-- An issue row of the client buffer: free text, the ordered status
history, and the closed flag. -/
structure Issue where
  issue : String
  statuses : List String
  closed : Bool
deriving DecidableEq

/-- A project of the client buffer: a name and its ordered issues. -/
structure Project where
  name : String
  issues : List Issue
deriving DecidableEq

/-- In-place update of one list element (the JavaScript pattern
next[i] mutated through a copied array); a position beyond the list is
left unchanged (the component only passes rendered, in-range indices). -/
def listModify (l : List α) (n : Nat) (f : α → α) : List α :=
  match l, n with
  | [], _ => []
  | a :: t, 0 => f a :: t
  | a :: t, Nat.succ m => a :: listModify t m f

/-- defaultProject, from src/App.jsx, with todayPrefix() passed in as
the today argument (it is the date of the call, an external input). -/
def defaultProject (today : String) : Project :=
  { name := "", issues := [{ issue := today, statuses := [today], closed := false }] }

/-- JavaScript String.prototype.trim: strip whitespace from both
ends. -/
def jsTrim (s : String) : String :=
  String.mk (((s.data.dropWhile Char.isWhitespace).reverse.dropWhile Char.isWhitespace).reverse)

/-- handleStatusChange, from src/App.jsx: overwrite status line s of
issue (p, i) with value; if s is the last line, the new value is
non-blank after trimming and the issue is open, push a fresh
todayPrefix() line. -/
def handleStatusChange (today : String) (projects : List Project) (p i s : Nat)
    (value : String) : List Project :=
  listModify projects p fun proj =>
    { proj with issues := listModify proj.issues i fun iss =>
        let sts := iss.statuses.set s value
        if s = sts.length - 1 ∧ jsTrim value ≠ "" ∧ iss.closed = false then
          { iss with statuses := sts ++ [today] }
        else { iss with statuses := sts } }

/-- handleProjectNameChange, from src/App.jsx. -/
def handleProjectNameChange (projects : List Project) (p : Nat) (value : String) :
    List Project :=
  listModify projects p fun proj => { proj with name := value }

/-- handleIssueChange, from src/App.jsx (always called with the field
"issue": it overwrites the issue text). -/
def handleIssueChange (projects : List Project) (p i : Nat) (value : String) :
    List Project :=
  listModify projects p fun proj =>
    { proj with issues := listModify proj.issues i fun iss => { iss with issue := value } }

/-- handleClosedToggle, from src/App.jsx. -/
def handleClosedToggle (projects : List Project) (p i : Nat) : List Project :=
  listModify projects p fun proj =>
    { proj with issues := listModify proj.issues i fun iss =>
        { iss with closed := !iss.closed } }

/-- deleteStatus, from src/App.jsx: splice the status line out and, if
the list became empty, push a fresh todayPrefix() line. -/
def deleteStatus (today : String) (projects : List Project) (p i s : Nat) :
    List Project :=
  listModify projects p fun proj =>
    { proj with issues := listModify proj.issues i fun iss =>
        let l := iss.statuses.eraseIdx s
        { iss with statuses := if l.isEmpty then [today] else l } }

/-- addProject, from src/App.jsx. -/
def addProject (today : String) (projects : List Project) : List Project :=
  projects ++ [defaultProject today]

/-- addIssue, from src/App.jsx. -/
def addIssue (today : String) (projects : List Project) (p : Nat) : List Project :=
  listModify projects p fun proj =>
    { proj with issues := proj.issues ++
        [{ issue := today, statuses := [today], closed := false }] }

/-- deleteProject, from src/App.jsx (after the user confirmed): filter
the project out and re-seed a default project when none remain. -/
def deleteProject (today : String) (projects : List Project) (p : Nat) :
    List Project :=
  let next := projects.eraseIdx p
  if next.isEmpty then [defaultProject today] else next

/-- The statuses list of issue (p, i), used to state the client
theorems. -/
def statusesAt (projects : List Project) (p i : Nat) : Option (List String) :=
  match projects[p]? with
  | some proj =>
    match proj.issues[i]? with
    | some iss => some iss.statuses
    | none => none
  | none => none

/-- The /api/me response held by the client: userId is null when
anonymous. -/
structure MeState where
  userId : Option Nat
  email : Option String
  displayName : Option String

/-- JavaScript truthiness of me?.userId: me must be non-null and its
userId a non-zero number. -/
def meUserTruthy : Option MeState → Bool
  | some m =>
    match m.userId with
    | some u => u != 0
    | none => false
  | none => false

/-- The debounced save effect, from src/App.jsx: when the guard
if (!loaded || !me?.userId) return fires, no PUT is scheduled (none);
otherwise the timer sends the entire current buffer (some projects). -/
def debouncedSaveEffect (loaded : Bool) (me : Option MeState)
    (projects : List Project) : Option (List Project) :=
  if loaded && meUserTruthy me then some projects else none

-- ---------- Helper lemmas ----------

lemma lookupPayload_upsertPayload (l : List (Nat × Json)) (u : Nat) (v : Json) :
    lookupPayload (upsertPayload l u v) u = some v := by
  unfold upsertPayload
  by_cases h : l.any (fun e => e.1 == u)
  · simp only [if_pos h]
    induction l with
    | nil => simp at h
    | cons e t ih =>
      by_cases he : e.1 == u
      · simp [lookupPayload, List.find?, he]
      · simp only [List.any_cons, Bool.or_eq_true] at h
        rcases h with h | h
        · exact absurd h he
        · simpa [lookupPayload, List.find?, he] using ih h
  · simp only [if_neg h]
    simp [lookupPayload, List.find?]

lemma find?_append_of_none {α : Type} (p : α → Bool) (l1 l2 : List α)
    (h : l1.find? p = none) : (l1 ++ l2).find? p = l2.find? p := by
  simp [List.find?_append, h]

lemma listModify_getElem? {α : Type} (l : List α) (n : Nat) (f : α → α) (m : Nat) :
    (listModify l n f)[m]? = if m = n then (l[m]?).map f else l[m]? := by
  induction l generalizing n m with
  | nil => simp [listModify]
  | cons a t ih =>
    cases n with
    | zero =>
      cases m with
      | zero => simp [listModify]
      | succ k => simp [listModify]
    | succ nm =>
      cases m with
      | zero => simp [listModify]
      | succ k =>
        simpa [listModify, Nat.succ_inj] using ih nm k

lemma mem_insertByMtime {a b : BackupFile} {l : List BackupFile} :
    a ∈ insertByMtime b l ↔ a = b ∨ a ∈ l := by
  induction l with
  | nil => simp [insertByMtime]
  | cons c t ih =>
    by_cases h : c.mtime ≤ b.mtime
    · simp [insertByMtime, h]
    · simp [insertByMtime, h, ih]
      tauto

lemma length_insertByMtime (b : BackupFile) (l : List BackupFile) :
    (insertByMtime b l).length = l.length + 1 := by
  induction l with
  | nil => rfl
  | cons c t ih =>
    by_cases h : c.mtime ≤ b.mtime
    · simp [insertByMtime, h]
    · simp [insertByMtime, h, ih]

lemma mem_listBackups {a : BackupFile} {l : List BackupFile} :
    a ∈ listBackups l ↔ a ∈ l := by
  induction l with
  | nil => simp [listBackups]
  | cons b t ih => simp [listBackups, mem_insertByMtime, ih]

lemma length_listBackups (l : List BackupFile) :
    (listBackups l).length = l.length := by
  induction l with
  | nil => rfl
  | cons b t ih => simp [listBackups, length_insertByMtime, ih]

/-- The backup directory listed newest-first: each entry's mtime bounds
every later entry's mtime. -/
def MtimeSorted (l : List BackupFile) : Prop :=
  List.Pairwise (fun x y => y.mtime ≤ x.mtime) l

lemma sorted_insertByMtime (b : BackupFile) (l : List BackupFile)
    (h : MtimeSorted l) : MtimeSorted (insertByMtime b l) := by
  induction l with
  | nil => simp [insertByMtime, MtimeSorted]
  | cons c t ih =>
    rcases List.pairwise_cons.mp h with ⟨hc, ht⟩
    by_cases hcb : c.mtime ≤ b.mtime
    · rw [MtimeSorted]
      rw [insertByMtime, if_pos hcb]
      refine List.Pairwise.cons ?_ h
      intro x hx
      rcases List.mem_cons.mp hx with rfl | hx
      · exact hcb
      · exact le_trans (hc x hx) hcb
    · rw [MtimeSorted]
      rw [insertByMtime, if_neg hcb]
      refine List.Pairwise.cons ?_ (ih ht)
      intro x hx
      rcases mem_insertByMtime.mp hx with rfl | hx
      · exact Nat.le_of_not_le hcb
      · exact hc x hx

lemma sorted_listBackups (l : List BackupFile) : MtimeSorted (listBackups l) := by
  induction l with
  | nil => exact List.Pairwise.nil
  | cons b t ih => exact sorted_insertByMtime b (listBackups t) ih

lemma insertByMtime_of_max (b : BackupFile) (l : List BackupFile)
    (h : ∀ x ∈ l, x.mtime ≤ b.mtime) : insertByMtime b l = b :: l := by
  cases l with
  | nil => rfl
  | cons c t =>
    rw [insertByMtime, if_pos (h c (List.mem_cons_self c t))]

lemma fsWrite_fresh (files : List BackupFile) (f : BackupFile)
    (h : ∀ g ∈ files, g.name ≠ f.name) : fsWrite files f = f :: files := by
  rw [fsWrite, if_neg]
  simp only [List.any_eq_true, not_exists, not_and]
  intro g hg
  simp [h g hg]

lemma listBackups_cons_of_max (b : BackupFile) (l : List BackupFile)
    (h : ∀ x ∈ l, x.mtime ≤ b.mtime) : listBackups (b :: l) = b :: listBackups l := by
  rw [listBackups]
  exact insertByMtime_of_max b (listBackups l) fun x hx =>
    h x (mem_listBackups.mp hx)

-- ---------- Claim theorems ----------

/-- C1: for every user u and every Document D, replace(u, D) followed by
read(u) returns a value deeply equal to D, with the order of projects,
issues, and statuses preserved exactly, in both the file-backed variant
(writeAllFileAndBackup / readAllFile) and the Postgres-backed variant
(writeAllPG / readAllPG). -/
theorem round_trip_replace_read (maxBackups : Nat) (stampName : String)
    (stampMtime : Nat) (fileSt : FileState) (pg : PGState) (u : Nat)
    (ps qs : List Json) :
    readAllFile (writeAllFileAndBackup maxBackups stampName stampMtime fileSt
        (some (Json.arr ps))) = Json.arr ps
    ∧ readAllPG (writeAllPG pg u (some (Json.arr qs))) u = Json.arr qs := by
  constructor
  · rfl
  · simp [readAllPG, writeAllPG, lookupPayload_upsertPayload, jsCoalesce]

/-- C2: every document, backup, restore and profile endpoint (GET, PUT
and POST /api/projects, GET /api/backup, POST /api/restore, PATCH
/api/me, POST /api/auth/change-password) answers 401 auth required and
leaves the stored state and session unchanged whenever the session
carries no (truthy) userId, regardless of the request body. -/
theorem auth_gate_unauthenticated (usePG : Bool) (maxBackups : Nat)
    (stampName : String) (stampMtime : Nat) (hasher : Hasher)
    (body : Option Json) (oldPassword newPassword : String)
    (displayName : Option String) (sess : Session) (st : ServerState)
    (h : sess.userId = none ∨ sess.userId = some 0) :
    getProjectsHandler usePG sess st = (authRequiredRes, st, sess)
    ∧ putProjectsHandler usePG maxBackups stampName stampMtime body sess st
        = (authRequiredRes, st, sess)
    ∧ postProjectsHandler usePG maxBackups stampName stampMtime body sess st
        = (authRequiredRes, st, sess)
    ∧ getBackupHandler usePG sess st = (authRequiredRes, st, sess)
    ∧ postRestoreHandler usePG maxBackups stampName stampMtime body sess st
        = (authRequiredRes, st, sess)
    ∧ patchMeHandler usePG displayName sess st = (authRequiredRes, st, sess)
    ∧ changePasswordHandler usePG hasher oldPassword newPassword sess st
        = (authRequiredRes, st, sess) := by
  rcases h with h | h <;>
    simp [getProjectsHandler, putProjectsHandler, postProjectsHandler,
      getBackupHandler, postRestoreHandler, patchMeHandler,
      changePasswordHandler, requireAuth, h]

/-- Witness for C2 at a concrete anonymous session and concrete
state: the projects read endpoint answers 401 auth required. -/
theorem auth_gate_unauthenticated_witness :
    getProjectsHandler true ⟨none, none, none⟩ (⟨Json.arr [], []⟩, ⟨[], [], 1⟩)
      = (authRequiredRes, (⟨Json.arr [], []⟩, ⟨[], [], 1⟩), ⟨none, none, none⟩) :=
  (auth_gate_unauthenticated true 30 "2026-01-01T00-00-00.000Z.json" 5
    ⟨fun s => s, fun _ _ => false⟩ none "" "" none ⟨none, none, none⟩
    (⟨Json.arr [], []⟩, ⟨[], [], 1⟩) (Or.inl rfl)).1

/-- C9: the debounced save effect performs no replace call while the
initial load has not completed or no user session is confirmed. -/
theorem debounced_save_requires_load_and_user (loaded : Bool)
    (me : Option MeState) (projects : List Project)
    (h : loaded = false ∨ meUserTruthy me = false) :
    debouncedSaveEffect loaded me projects = none := by
  rcases h with h | h <;> simp [debouncedSaveEffect, h]

/-- Witness for C9: with the loaded flag down and no session, no save
request is produced for a non-empty buffer. -/
theorem debounced_save_requires_load_and_user_witness :
    debouncedSaveEffect false (some ⟨some 1, none, none⟩) [defaultProject "d"] = none :=
  debounced_save_requires_load_and_user false (some ⟨some 1, none, none⟩)
    [defaultProject "d"] (Or.inl rfl)

/-- C3: an authenticated restore whose artifact payload is not an array
answers 400 payload must be an array and leaves the stored state and
session unchanged; a restore whose payload is an array answers 200 and
afterwards the stored document equals that payload exactly (full
overwrite, no merge), in whichever backend is active. -/
theorem restore_validation (usePG : Bool) (maxBackups : Nat)
    (stampName : String) (stampMtime : Nat) (body : Option Json)
    (sess : Session) (st : ServerState) (uid : Nat)
    (hs : sess.userId = some uid) (h0 : uid ≠ 0) :
    ((∀ l, getField (bodyOr body) "payload" ≠ some (Json.arr l)) →
      postRestoreHandler usePG maxBackups stampName stampMtime body sess st
        = (errRes 400 "payload must be an array", st, sess))
    ∧ (∀ l, getField (bodyOr body) "payload" = some (Json.arr l) →
      (postRestoreHandler usePG maxBackups stampName stampMtime body sess st).1
          = okTrueRes
      ∧ storedDoc usePG
          (postRestoreHandler usePG maxBackups stampName stampMtime body sess st).2.1
          uid = Json.arr l) := by
  rcases uid with _ | n
  · exact absurd rfl h0
  constructor
  · intro hna
    rw [postRestoreHandler, requireAuth]
    rw [hs]
    cases hfield : getField (bodyOr body) "payload" with
    | none => simp [hfield]
    | some j =>
      cases j with
      | arr l => exact absurd hfield (hna l)
      | null => simp [hfield]
      | bool b => simp [hfield]
      | num m => simp [hfield]
      | str s => simp [hfield]
      | obj kvs => simp [hfield]
  · intro l hl
    rw [postRestoreHandler, requireAuth]
    rw [hs]
    cases usePG with
    | true =>
      simp [hl, storedDoc, readAllPG, writeAllPG, lookupPayload_upsertPayload,
        jsCoalesce]
    | false =>
      simp [hl, storedDoc, readAllFile, writeAllFileAndBackup, jsCoalesce]

/-- Witness for C3: restoring the artifact with payload ["x"] under an
authenticated session stores exactly ["x"] in the Postgres backend. -/
theorem restore_validation_witness :
    (postRestoreHandler true 30 "b.json" 5
        (some (Json.obj [("payload", Json.arr [Json.str "x"])]))
        ⟨some 1, none, none⟩ (⟨Json.arr [], []⟩, ⟨[], [], 2⟩)).1 = okTrueRes
    ∧ storedDoc true
        (postRestoreHandler true 30 "b.json" 5
          (some (Json.obj [("payload", Json.arr [Json.str "x"])]))
          ⟨some 1, none, none⟩ (⟨Json.arr [], []⟩, ⟨[], [], 2⟩)).2.1 1
        = Json.arr [Json.str "x"] :=
  (restore_validation true 30 "b.json" 5
    (some (Json.obj [("payload", Json.arr [Json.str "x"])]))
    ⟨some 1, none, none⟩ (⟨Json.arr [], []⟩, ⟨[], [], 2⟩) 1 rfl
    (by decide)).2 [Json.str "x"] rfl

/-- C10: an authenticated PUT or POST of /api/projects whose body is
missing or JSON null answers ok and stores the empty document [] (never
null): the route coalesces req.body ?? [] and each storage backend
independently coalesces value ?? [] before writing. -/
theorem null_body_stores_empty (usePG : Bool) (maxBackups : Nat)
    (stampName : String) (stampMtime : Nat) (sess : Session)
    (st : ServerState) (uid : Nat) (body : Option Json)
    (hs : sess.userId = some uid) (h0 : uid ≠ 0)
    (hb : body = none ∨ body = some Json.null) :
    ((putProjectsHandler usePG maxBackups stampName stampMtime body sess st).1
        = okStatusRes
      ∧ storedDoc usePG
          (putProjectsHandler usePG maxBackups stampName stampMtime body sess st).2.1
          uid = Json.arr [])
    ∧ ((postProjectsHandler usePG maxBackups stampName stampMtime body sess st).1
        = okStatusRes
      ∧ storedDoc usePG
          (postProjectsHandler usePG maxBackups stampName stampMtime body sess st).2.1
          uid = Json.arr [])
    ∧ (∀ (pg : PGState) (u : Nat) (v : Option Json),
        v = none ∨ v = some Json.null →
        readAllPG (writeAllPG pg u v) u = Json.arr [])
    ∧ (∀ (fs : FileState) (v : Option Json),
        v = none ∨ v = some Json.null →
        readAllFile (writeAllFileAndBackup maxBackups stampName stampMtime fs v)
          = Json.arr []) := by
  rcases uid with _ | n
  · exact absurd rfl h0
  have hback : ∀ (pg : PGState) (u : Nat) (v : Option Json),
      v = none ∨ v = some Json.null →
      readAllPG (writeAllPG pg u v) u = Json.arr [] := by
    intro pg u v hv
    rcases hv with hv | hv <;>
      simp [hv, readAllPG, writeAllPG, lookupPayload_upsertPayload, jsCoalesce]
  have hfile : ∀ (fs : FileState) (v : Option Json),
      v = none ∨ v = some Json.null →
      readAllFile (writeAllFileAndBackup maxBackups stampName stampMtime fs v)
        = Json.arr [] := by
    intro fs v hv
    rcases hv with hv | hv <;> simp [hv, readAllFile, writeAllFileAndBackup, jsCoalesce]
  refine ⟨?_, ?_, hback, hfile⟩ <;>
  · rcases hb with hb | hb <;> cases usePG <;>
      simp [hb, putProjectsHandler, postProjectsHandler, requireAuth, hs, storedDoc,
        readAllPG, writeAllPG, lookupPayload_upsertPayload, jsCoalesce,
        readAllFile, writeAllFileAndBackup]

/-- Witness for C10: a PUT with body JSON null under an authenticated
session stores the empty document in the Postgres backend. -/
theorem null_body_stores_empty_witness :
    (putProjectsHandler true 30 "b.json" 5 (some Json.null)
        ⟨some 1, none, none⟩ (⟨Json.arr [], []⟩, ⟨[], [(1, Json.str "old")], 2⟩)).1
      = okStatusRes
    ∧ storedDoc true
        (putProjectsHandler true 30 "b.json" 5 (some Json.null)
          ⟨some 1, none, none⟩ (⟨Json.arr [], []⟩, ⟨[], [(1, Json.str "old")], 2⟩)).2.1
        1 = Json.arr [] :=
  (null_body_stores_empty true 30 "b.json" 5 ⟨some 1, none, none⟩
    (⟨Json.arr [], []⟩, ⟨[], [(1, Json.str "old")], 2⟩) 1 (some Json.null) rfl
    (by decide) (Or.inr rfl)).1

/-- A concrete hash/verify capability used by concrete evaluations. -/
def demoHasher : Hasher :=
  { hash := fun s => s ++ "#", compare := fun p h => p ++ "#" == h }

/-- A concrete Postgres state: one registered user with a stored hash. -/
def demoPG : PGState :=
  { users := [{ id := 1, email := "a@b.c", passwordHash := "pw123456#",
                displayName := none }],
    appState := [(1, Json.arr [])], nextId := 2 }

/-- A concrete combined server state around demoPG. -/
def demoState : ServerState :=
  ({ dataFile := Json.arr [], backups := [] }, demoPG)

/-- Counterexample to C4: with an active session, a wrong oldPassword
and a newPassword shorter than 6 characters, the change-password route
answers 400 (the newPassword length check runs first), not the 401
Unauthorized the claim requires for a wrong oldPassword; the stored
hash really does not verify the offered oldPassword. -/
theorem change_password_wrong_old_short_new_is_400 :
    demoHasher.compare "wrong" "pw123456#" = false
    ∧ (changePasswordHandler true demoHasher "wrong" "abc"
        ⟨some 1, none, none⟩ demoState).1.status = 400
    ∧ (changePasswordHandler true demoHasher "wrong" "abc"
        ⟨some 1, none, none⟩ demoState).1.status ≠ 401 := by
  refine ⟨by decide, rfl, by decide⟩

/-- C4 as amended: with an active session, (a) a wrong oldPassword
together with a newPassword of length at least 6 answers 401 invalid
credentials and leaves the state (hence the stored hash) unchanged, and
(b) a newPassword shorter than 6 characters answers 400 and leaves the
state unchanged regardless of oldPassword and backend. -/
theorem change_password_gates (hasher : Hasher) (sess : Session)
    (st : ServerState) (uid : Nat) (u : PGUser)
    (oldPassword newPassword : String)
    (hs : sess.userId = some uid) (h0 : uid ≠ 0) :
    ((6 ≤ newPassword.length) → getUserById st.2 uid = some u →
      hasher.compare oldPassword u.passwordHash = false →
      changePasswordHandler true hasher oldPassword newPassword sess st
        = (errRes 401 "invalid credentials", st, sess))
    ∧ (newPassword.length < 6 → ∀ usePG,
      changePasswordHandler usePG hasher oldPassword newPassword sess st
        = (errRes 400 "newPassword must be at least 6 chars", st, sess)) := by
  rcases uid with _ | n
  · exact absurd rfl h0
  constructor
  · intro hlen hu hcmp
    have hne : ¬(newPassword = "" ∨ newPassword.length < 6) := by
      rintro (h | h)
      · rw [h] at hlen
        simp at hlen
      · omega
    simp [changePasswordHandler, requireAuth, hs, hne, updatePasswordPG, hu, hcmp]
  · intro hlen usePG
    have h : newPassword = "" ∨ newPassword.length < 6 := Or.inr hlen
    simp [changePasswordHandler, requireAuth, hs, h]

/-- Witness for the amended C4: a wrong oldPassword with a long-enough
newPassword answers 401 and leaves the demo state unchanged. -/
theorem change_password_gates_witness :
    changePasswordHandler true demoHasher "wrong" "longenough"
        ⟨some 1, none, none⟩ demoState
      = (errRes 401 "invalid credentials", demoState, ⟨some 1, none, none⟩) :=
  (change_password_gates demoHasher ⟨some 1, none, none⟩ demoState 1
    ⟨1, "a@b.c", "pw123456#", none⟩ "wrong" "longenough" rfl (by decide)).1
    (by decide) rfl (by decide)

/-- C5: registering the same email twice (Postgres identity backend)
answers 409 email already exists on the second attempt and leaves the
state of the first registration untouched; the first account's stored
hash is still the hash of the first password. -/
theorem register_duplicate_conflict (hasher : Hasher) (sess sess2 : Session)
    (st : ServerState) (e pw1 pw2 : String) (n1 n2 : Option String)
    (he : e ≠ "") (hp1 : pw1 ≠ "") (hp2 : pw2 ≠ "")
    (hfresh : getUserByEmail st.2 e = none) :
    registerHandler true hasher e pw2 n2 sess2
        (registerHandler true hasher e pw1 n1 sess st).2.1
      = (errRes 409 "email already exists",
         (registerHandler true hasher e pw1 n1 sess st).2.1, sess2)
    ∧ ∃ u, getUserByEmail (registerHandler true hasher e pw1 n1 sess st).2.1.2 e
        = some u ∧ u.passwordHash = hasher.hash pw1 := by
  have hstep : (registerHandler true hasher e pw1 n1 sess st).2.1
      = (st.1, (createUser hasher st.2 e pw1 (strOrNull n1)).2) := by
    simp [registerHandler, he, hp1, hfresh]
  rw [getUserByEmail] at hfresh
  have hfind : getUserByEmail (createUser hasher st.2 e pw1 (strOrNull n1)).2 e
      = some { id := st.2.nextId, email := e, passwordHash := hasher.hash pw1,
               displayName := strOrNull n1 } := by
    rw [getUserByEmail, createUser]
    simp only
    rw [find?_append_of_none _ _ _ hfresh]
    simp [List.find?]
  constructor
  · rw [hstep]
    simp [registerHandler, he, hp2, hfind]
  · rw [hstep]
    exact ⟨_, hfind, rfl⟩

/-- Witness for C5: registering x@y twice starting from an empty user
table yields 409 on the second attempt. -/
theorem register_duplicate_conflict_witness :
    registerHandler true demoHasher "x@y" "pw2pw2" none ⟨none, none, none⟩
        (registerHandler true demoHasher "x@y" "pw1pw1" none ⟨none, none, none⟩
          (⟨Json.arr [], []⟩, ⟨[], [], 1⟩)).2.1
      = (errRes 409 "email already exists",
         (registerHandler true demoHasher "x@y" "pw1pw1" none ⟨none, none, none⟩
           (⟨Json.arr [], []⟩, ⟨[], [], 1⟩)).2.1, ⟨none, none, none⟩) :=
  (register_duplicate_conflict demoHasher ⟨none, none, none⟩ ⟨none, none, none⟩
    (⟨Json.arr [], []⟩, ⟨[], [], 1⟩) "x@y" "pw1pw1" "pw2pw2" none none
    (by decide) (by decide) (by decide) rfl).1

/-- C6: a login that fails because the email is unknown and a login
that fails because the password does not verify produce exactly the
same response (status 401 and body invalid credentials) with state and
session unchanged, so the two causes cannot be told apart. -/
theorem login_failure_indistinguishable (hasher : Hasher) (sess : Session)
    (st : ServerState) (e1 pw1 e2 pw2 : String) (u : PGUser)
    (h1 : e1 ≠ "") (h2 : pw1 ≠ "") (h3 : e2 ≠ "") (h4 : pw2 ≠ "")
    (hu : getUserByEmail st.2 e1 = none)
    (hk : getUserByEmail st.2 e2 = some u)
    (hc : hasher.compare pw2 u.passwordHash = false) :
    loginHandler true hasher e1 pw1 sess st
      = (errRes 401 "invalid credentials", st, sess)
    ∧ loginHandler true hasher e2 pw2 sess st
      = loginHandler true hasher e1 pw1 sess st := by
  have ha : loginHandler true hasher e1 pw1 sess st
      = (errRes 401 "invalid credentials", st, sess) := by
    simp [loginHandler, h1, h2, hu]
  have hb : loginHandler true hasher e2 pw2 sess st
      = (errRes 401 "invalid credentials", st, sess) := by
    simp [loginHandler, h3, h4, hk, hc]
  exact ⟨ha, hb.trans ha.symm⟩

/-- Witness for C6: an unknown email and a known email with a wrong
password get identical responses on the demo state. -/
theorem login_failure_indistinguishable_witness :
    loginHandler true demoHasher "nobody@x" "whatever" ⟨none, none, none⟩ demoState
      = (errRes 401 "invalid credentials", demoState, ⟨none, none, none⟩)
    ∧ loginHandler true demoHasher "a@b.c" "wrong" ⟨none, none, none⟩ demoState
      = loginHandler true demoHasher "nobody@x" "whatever" ⟨none, none, none⟩
          demoState :=
  login_failure_indistinguishable demoHasher ⟨none, none, none⟩ demoState
    "nobody@x" "whatever" "a@b.c" "wrong" ⟨1, "a@b.c", "pw123456#", none⟩
    (by decide) (by decide) (by decide) (by decide) rfl rfl (by decide)

lemma statusesAt_modifyAt (projects : List Project) (p i : Nat)
    (g : Issue → Issue) (proj : Project) (iss : Issue)
    (hp : projects[p]? = some proj) (hi : proj.issues[i]? = some iss) :
    statusesAt
        (listModify projects p fun pr => { pr with issues := listModify pr.issues i g })
        p i
      = some (g iss).statuses := by
  rw [statusesAt, listModify_getElem?, if_pos rfl, hp]
  simp only [Option.map_some']
  rw [listModify_getElem?, if_pos rfl, hi]
  simp only [Option.map_some']

lemma statusesAt_modifyAt_preserve (projects : List Project) (p i : Nat)
    (g : Issue → Issue) (q j : Nat)
    (hpres : ∀ iss, (g iss).statuses = iss.statuses) :
    statusesAt
        (listModify projects p fun pr => { pr with issues := listModify pr.issues i g })
        q j
      = statusesAt projects q j := by
  rw [statusesAt, statusesAt, listModify_getElem?]
  by_cases hq : q = p
  · rw [if_pos hq]
    cases hqq : projects[q]? with
    | none => rfl
    | some pr =>
      simp only [Option.map_some']
      show (match (listModify pr.issues i g)[j]? with
            | some iss => some iss.statuses
            | none => none) =
          (match pr.issues[j]? with
            | some iss => some iss.statuses
            | none => none)
      rw [listModify_getElem?]
      by_cases hj : j = i
      · rw [if_pos hj]
        cases pr.issues[j]? with
        | none => rfl
        | some iss => simp [hpres]
      · rw [if_neg hj]
  · rw [if_neg hq]

/-- A concrete one-project buffer whose single issue has exactly one
status line. -/
def demoProjects : List Project :=
  [{ name := "P", issues := [{ issue := "I", statuses := ["only"], closed := false }] }]

/-- Counterexample to C7: handleStatusChange is not the only mutation
that auto-generates content.  Deleting the only status line of an issue
via deleteStatus re-seeds a fresh date-prefixed line instead of leaving
the spliced (empty) list. -/
theorem delete_status_reseeds_line :
    statusesAt (deleteStatus "2026-10-11: " demoProjects 0 0 0) 0 0
      = some ["2026-10-11: "]
    ∧ (["only"].eraseIdx 0 : List String) = []
    ∧ some ["2026-10-11: "] ≠ some (["only"].eraseIdx 0) := by
  refine ⟨rfl, rfl, by decide⟩

/-- C7 as amended: in the client edit buffer, (a) handleStatusChange on
the last status line of an open issue with a value that is non-blank
after trimming appends one fresh date-prefixed line, (b) in every other
case handleStatusChange only overwrites the addressed line, (c) the
field edits handleProjectNameChange, handleIssueChange and
handleClosedToggle never change any status list, and (d) the one other
auto-generation is the empty-list repair: deleteStatus re-seeds one
fresh date-prefixed line when the deletion would leave the issue with
no status line. -/
theorem status_autogeneration_rules (today value : String)
    (projects : List Project) (p i s : Nat) (proj : Project) (iss : Issue)
    (hp : projects[p]? = some proj) (hi : proj.issues[i]? = some iss) :
    ((s = iss.statuses.length - 1 ∧ jsTrim value ≠ "" ∧ iss.closed = false) →
      statusesAt (handleStatusChange today projects p i s value) p i
        = some (iss.statuses.set s value ++ [today]))
    ∧ (¬(s = iss.statuses.length - 1 ∧ jsTrim value ≠ "" ∧ iss.closed = false) →
      statusesAt (handleStatusChange today projects p i s value) p i
        = some (iss.statuses.set s value))
    ∧ (∀ q j, statusesAt (handleProjectNameChange projects p value) q j
        = statusesAt projects q j)
    ∧ (∀ q j, statusesAt (handleIssueChange projects p i value) q j
        = statusesAt projects q j)
    ∧ (∀ q j, statusesAt (handleClosedToggle projects p i) q j
        = statusesAt projects q j)
    ∧ (iss.statuses.eraseIdx s = [] →
      statusesAt (deleteStatus today projects p i s) p i = some [today]) := by
  refine ⟨?_, ?_, ?_, ?_, ?_, ?_⟩
  · intro hcond
    rw [handleStatusChange, statusesAt_modifyAt projects p i _ proj iss hp hi]
    simp only [List.length_set]
    rw [if_pos hcond]
  · intro hcond
    rw [handleStatusChange, statusesAt_modifyAt projects p i _ proj iss hp hi]
    simp only [List.length_set]
    rw [if_neg hcond]
  · intro q j
    rw [handleProjectNameChange, statusesAt, statusesAt, listModify_getElem?]
    by_cases hq : q = p
    · rw [if_pos hq]
      cases projects[q]? with
      | none => rfl
      | some pr => rfl
    · rw [if_neg hq]
  · intro q j
    exact statusesAt_modifyAt_preserve projects p i _ q j fun _ => rfl
  · intro q j
    exact statusesAt_modifyAt_preserve projects p i _ q j fun _ => rfl
  · intro hempty
    rw [deleteStatus, statusesAt_modifyAt projects p i _ proj iss hp hi]
    simp [hempty]

/-- Witness for the amended C7: editing the only (hence last) status
line of an open issue to a non-blank value appends one fresh
date-prefixed line. -/
theorem status_autogeneration_rules_witness :
    statusesAt (handleStatusChange "2026-10-11: " demoProjects 0 0 0 "done") 0 0
      = some ["done", "2026-10-11: "] :=
  (status_autogeneration_rules "2026-10-11: " "done" demoProjects 0 0 0
    { name := "P", issues := [{ issue := "I", statuses := ["only"], closed := false }] }
    { issue := "I", statuses := ["only"], closed := false } rfl rfl).1
    (by refine ⟨rfl, by decide, rfl⟩)

lemma sorted_take_drop (l : List BackupFile) (n : Nat) (h : MtimeSorted l) :
    ∀ k ∈ l.take n, ∀ d ∈ l.drop n, d.mtime ≤ k.mtime := by
  rw [MtimeSorted, ← List.take_append_drop n l, List.pairwise_append] at h
  exact h.2.2

/-- C8: in the file-backed variant, a successful replace with a fresh
timestamp writes exactly one new snapshot into the backup directory,
and afterwards the directory holds at most MAX_BACKUPS snapshots, the
new snapshot among them, and every snapshot that was deleted is no
newer than any snapshot that was kept. -/
theorem backup_rotation (maxBackups : Nat) (stampName : String)
    (stampMtime : Nat) (st : FileState) (value : Option Json)
    (hfresh : ∀ b ∈ st.backups, b.name ≠ stampName)
    (hlatest : ∀ b ∈ st.backups, b.mtime ≤ stampMtime)
    (hmax : 0 < maxBackups) :
    fsWrite st.backups ⟨stampName, stampMtime, jsCoalesce value⟩
      = (⟨stampName, stampMtime, jsCoalesce value⟩ : BackupFile) :: st.backups
    ∧ (writeAllFileAndBackup maxBackups stampName stampMtime st value).backups.length
        ≤ maxBackups
    ∧ (⟨stampName, stampMtime, jsCoalesce value⟩ : BackupFile)
        ∈ (writeAllFileAndBackup maxBackups stampName stampMtime st value).backups
    ∧ ∀ b ∈ fsWrite st.backups ⟨stampName, stampMtime, jsCoalesce value⟩,
        b ∉ (writeAllFileAndBackup maxBackups stampName stampMtime st value).backups →
        ∀ k ∈ (writeAllFileAndBackup maxBackups stampName stampMtime st value).backups,
          b.mtime ≤ k.mtime := by
  have hw : fsWrite st.backups ⟨stampName, stampMtime, jsCoalesce value⟩
      = (⟨stampName, stampMtime, jsCoalesce value⟩ : BackupFile) :: st.backups :=
    fsWrite_fresh _ _ hfresh
  have hbk : (writeAllFileAndBackup maxBackups stampName stampMtime st value).backups
      = createBackup maxBackups st.backups ⟨stampName, stampMtime, jsCoalesce value⟩ :=
    rfl
  have hall : listBackups (fsWrite st.backups ⟨stampName, stampMtime, jsCoalesce value⟩)
      = (⟨stampName, stampMtime, jsCoalesce value⟩ : BackupFile)
          :: listBackups st.backups := by
    rw [hw]
    exact listBackups_cons_of_max _ _ hlatest
  have hsorted : MtimeSorted
      (listBackups (fsWrite st.backups ⟨stampName, stampMtime, jsCoalesce value⟩)) :=
    sorted_listBackups _
  have hcb : createBackup maxBackups st.backups ⟨stampName, stampMtime, jsCoalesce value⟩
      = if maxBackups <
          (listBackups (fsWrite st.backups ⟨stampName, stampMtime, jsCoalesce value⟩)).length
        then (listBackups (fsWrite st.backups ⟨stampName, stampMtime, jsCoalesce value⟩)).take maxBackups
        else listBackups (fsWrite st.backups ⟨stampName, stampMtime, jsCoalesce value⟩) :=
    rfl
  refine ⟨hw, ?_, ?_, ?_⟩
  · rw [hbk, hcb]
    by_cases hlen : maxBackups <
        (listBackups (fsWrite st.backups ⟨stampName, stampMtime, jsCoalesce value⟩)).length
    · rw [if_pos hlen, List.length_take]
      exact min_le_left _ _
    · rw [if_neg hlen]
      exact Nat.le_of_not_lt hlen
  · rw [hbk, hcb]
    by_cases hlen : maxBackups <
        (listBackups (fsWrite st.backups ⟨stampName, stampMtime, jsCoalesce value⟩)).length
    · rw [if_pos hlen, hall]
      rcases maxBackups with _ | m
      · exact absurd hmax (by decide)
      · rw [List.take_succ_cons]
        exact List.mem_cons_self _ _
    · rw [if_neg hlen, hall]
      exact List.mem_cons_self _ _
  · intro b hb hnotkept k hk
    rw [hbk, hcb] at hnotkept hk
    by_cases hlen : maxBackups <
        (listBackups (fsWrite st.backups ⟨stampName, stampMtime, jsCoalesce value⟩)).length
    · rw [if_pos hlen] at hnotkept hk
      have hball : b ∈ listBackups (fsWrite st.backups ⟨stampName, stampMtime, jsCoalesce value⟩) :=
        mem_listBackups.mpr hb
      have hbdrop : b ∈ (listBackups (fsWrite st.backups ⟨stampName, stampMtime, jsCoalesce value⟩)).drop maxBackups := by
        rw [← List.take_append_drop maxBackups
          (listBackups (fsWrite st.backups ⟨stampName, stampMtime, jsCoalesce value⟩)),
          List.mem_append] at hball
        tauto
      exact sorted_take_drop _ maxBackups hsorted k hk b hbdrop
    · rw [if_neg hlen] at hnotkept
      exact absurd (mem_listBackups.mpr hb) hnotkept

/-- Witness for C8: replacing the document on an empty backup directory
with MAX_BACKUPS equal 30 keeps the single new snapshot. -/
theorem backup_rotation_witness :
    (writeAllFileAndBackup 30 "2026-01-01T00-00-00.000Z.json" 77
        { dataFile := Json.arr [], backups := [] } (some (Json.arr []))).backups.length
      ≤ 30
    ∧ (⟨"2026-01-01T00-00-00.000Z.json", 77, jsCoalesce (some (Json.arr []))⟩ : BackupFile)
        ∈ (writeAllFileAndBackup 30 "2026-01-01T00-00-00.000Z.json" 77
            { dataFile := Json.arr [], backups := [] } (some (Json.arr []))).backups :=
  ⟨(backup_rotation 30 "2026-01-01T00-00-00.000Z.json" 77
      { dataFile := Json.arr [], backups := [] } (some (Json.arr []))
      (by intro b hb; cases hb) (by intro b hb; cases hb) (by decide)).2.1,
   (backup_rotation 30 "2026-01-01T00-00-00.000Z.json" 77
      { dataFile := Json.arr [], backups := [] } (some (Json.arr []))
      (by intro b hb; cases hb) (by intro b hb; cases hb) (by decide)).2.2.1⟩
